import Mathlib

/-!
Verification of the Cohort Manager front-end's client-side data
synchronization layer: the dashboard's optimistic-update handlers
(src/pages/dashboard/index.js) and the REST API client wrapper
(service/apiClient, the unnamed module exporting `request`).

The JavaScript is shallowly embedded: each mutation handler becomes a pure
Lean function from the awaited server-call results (modelled as `Except`)
and the previous `posts` state to the propagated outcome and the next
`posts` state.  JavaScript object spread becomes Lean structure update,
array `map`/`filter` become `List.map`/`List.filter`, and `===` identity of
untouched elements becomes equality of the corresponding list elements
(the embedding never rebuilds an element it does not touch, mirroring the
source, so equality of elements tracks reference identity).
-/

namespace CohortManager

/-- A comment record `{id, postId, userId, content}` (spec §3). -/
structure Comment where
  id : Nat
  postId : Nat
  userId : Nat
  content : String
deriving DecidableEq, Repr

/-- A post record `{id, userId, content, comments}` (spec §3). -/
structure Post where
  id : Nat
  userId : Nat
  content : String
  comments : List Comment
deriving DecidableEq, Repr

/-- Opaque error value standing for a rejected server call
(network failure, non-2xx, malformed JSON — the client does not
distinguish them, spec §7). -/
structure ApiError where
  msg : String
deriving DecidableEq, Repr

/-- dashboard/index.js line 99:
`const updatePosts = (fn) => setPosts((prev) => prev.map(fn));` -/
def updatePosts (fn : Post → Post) (prev : List Post) : List Post :=
  prev.map fn

/-- dashboard/index.js lines 86–93 (`handlePostSubmit`).  The awaited
`postPost` call is the `savedPost` argument.  The body is wrapped in
`try { ... } catch (err) { console.error(err); }`, so a rejection is
swallowed (the handler resolves normally) and the prepend only runs on the
success path. -/
def handlePostSubmit (savedPost : Except ApiError Post) (prev : List Post) :
    Except ApiError Unit × List Post :=
  match savedPost with
  | Except.ok p => (Except.ok (), p :: prev)
  | Except.error _ => (Except.ok (), prev)

/-- dashboard/index.js lines 101–104 (`handleDeletePost`): await
`deletePost(postId)`, then `setPosts((prev) => prev.filter((p) => p.id !== postId))`.
No try/catch: a rejection propagates and no transform runs. -/
def handleDeletePost (deleteCall : Except ApiError Unit) (postId : Nat)
    (prev : List Post) : Except ApiError Unit × List Post :=
  match deleteCall with
  | Except.ok _ => (Except.ok (), prev.filter (fun p => p.id ≠ postId))
  | Except.error e => (Except.error e, prev)

/-- dashboard/index.js lines 106–112 (`handleUpdatePost`): await
`patchPost(postId, newContent)` (result `updatedPost`), then await
`getCommentByPostId(postId)` (result `refreshedComments`), then
`updatePosts((post) => post.id === postId ? { ...updatedPost, comments: refreshedComments } : post)`.
No try/catch: if either call rejects, the rejection propagates before the
transform runs. -/
def handleUpdatePost (patchCall : Except ApiError Post)
    (commentsCall : Except ApiError (List Comment)) (postId : Nat)
    (prev : List Post) : Except ApiError Unit × List Post :=
  match patchCall with
  | Except.error e => (Except.error e, prev)
  | Except.ok updatedPost =>
    match commentsCall with
    | Except.error e => (Except.error e, prev)
    | Except.ok refreshedComments =>
      (Except.ok (), updatePosts
        (fun post => if post.id = postId
          then { updatedPost with comments := refreshedComments }
          else post) prev)

/-- dashboard/index.js lines 114–119 (`handleCommentPost`): await
`postComments(postId, user.id, text)` (result `savedComment`), then
`updatePosts((post) => post.id === postId ? { ...post, comments: [...post.comments, savedComment] } : post)`.
No try/catch. -/
def handleCommentPost (postCall : Except ApiError Comment) (postId : Nat)
    (prev : List Post) : Except ApiError Unit × List Post :=
  match postCall with
  | Except.error e => (Except.error e, prev)
  | Except.ok savedComment =>
    (Except.ok (), updatePosts
      (fun post => if post.id = postId
        then { post with comments := post.comments ++ [savedComment] }
        else post) prev)

/-- dashboard/index.js lines 121–128 (`handleDeleteComment`): await
`deleteComment(commentId)`, then
`updatePosts((post) => post.id === postId ? { ...post, comments: post.comments.filter((c) => c.id !== commentId) } : post)`.
No try/catch. -/
def handleDeleteComment (deleteCall : Except ApiError Unit) (postId : Nat)
    (commentId : Nat) (prev : List Post) : Except ApiError Unit × List Post :=
  match deleteCall with
  | Except.error e => (Except.error e, prev)
  | Except.ok _ =>
    (Except.ok (), updatePosts
      (fun post => if post.id = postId
        then { post with comments := post.comments.filter (fun c => c.id ≠ commentId) }
        else post) prev)

/-- dashboard/index.js lines 130–137 (`handleUpdateComment`): await
`patchComment(commentId, newContent)` (result `updatedComment`), then
`updatePosts((post) => post.id === postId ? { ...post, comments: post.comments.map((c) => (c.id === commentId ? updatedComment : c)) } : post)`.
No try/catch. -/
def handleUpdateComment (patchCall : Except ApiError Comment) (postId : Nat)
    (commentId : Nat) (prev : List Post) : Except ApiError Unit × List Post :=
  match patchCall with
  | Except.error e => (Except.error e, prev)
  | Except.ok updatedComment =>
    (Except.ok (), updatePosts
      (fun post => if post.id = postId
        then { post with comments :=
          post.comments.map (fun c => if c.id = commentId then updatedComment else c) }
        else post) prev)

/-- The dashboard state touched by the posts effect: the `posts` collection
and its `loadingPosts` flag (dashboard/index.js lines 35 and 39). -/
structure PostsState where
  posts : List Post
  loadingPosts : Bool
deriving DecidableEq, Repr

/-- `useState([])` and `useState(true)` initial values for the posts
effect (dashboard/index.js lines 35, 39). -/
def initialPostsState : PostsState :=
  { posts := [], loadingPosts := true }

/-- dashboard/index.js lines 47–59 (`fetchPosts`): on success
`setPosts(postsFromApi.reverse())`; on failure only `console.error`; in
both cases the `finally` block runs `setLoadingPosts(false)`. -/
def fetchPosts (getPostsCall : Except ApiError (List Post)) (s : PostsState) :
    PostsState :=
  match getPostsCall with
  | Except.ok postsFromApi =>
    { s with posts := postsFromApi.reverse, loadingPosts := false }
  | Except.error _ => { s with loadingPosts := false }

/-! ## Sequences of create-post / delete-post operations (for the
length/identity property over `handlePostSubmit` and `handleDeletePost`) -/

/-- One user-triggered post mutation: a create (carrying the post the
server returns, whose id the server assigned) or a delete by id. -/
inductive PostOp where
  | create (p : Post)
  | delete (i : Nat)
deriving DecidableEq, Repr

/-- Run a sequence of post operations against the dashboard state, each
through the corresponding handler's success path (`handlePostSubmit`
prepends the saved post, `handleDeletePost` filters by id). -/
def applyOps : List PostOp → List Post → List Post
  | [], ps => ps
  | PostOp.create p :: rest, ps =>
    applyOps rest (handlePostSubmit (Except.ok p) ps).snd
  | PostOp.delete i :: rest, ps =>
    applyOps rest (handleDeletePost (Except.ok ()) i ps).snd

/-- The ids of the posts created along an operation sequence. -/
def createIds : List PostOp → List Nat
  | [] => []
  | PostOp.create p :: rest => p.id :: createIds rest
  | PostOp.delete _ :: rest => createIds rest

/-- The ids targeted by the deletes of an operation sequence. -/
def deleteIds : List PostOp → List Nat
  | [] => []
  | PostOp.create _ :: rest => deleteIds rest
  | PostOp.delete i :: rest => i :: deleteIds rest

/-- The number of creates that are not followed, later in the sequence, by
a delete of the same id. -/
def survivingCreates : List PostOp → Nat
  | [] => 0
  | PostOp.create p :: rest =>
    (if p.id ∈ deleteIds rest then 0 else 1) + survivingCreates rest
  | PostOp.delete _ :: rest => survivingCreates rest

/-- The ids of the creates that are not followed by a later delete of the
same id. -/
def survivingCreateIds : List PostOp → List Nat
  | [] => []
  | PostOp.create p :: rest =>
    if p.id ∈ deleteIds rest then survivingCreateIds rest
    else p.id :: survivingCreateIds rest
  | PostOp.delete _ :: rest => survivingCreateIds rest

/-- The same operation sequence run on the id projection of the state. -/
def applyIds : List PostOp → List Nat → List Nat
  | [], l => l
  | PostOp.create p :: rest, l => applyIds rest (p.id :: l)
  | PostOp.delete i :: rest, l => applyIds rest (l.filter (fun x => x ≠ i))

/-! ## API client (service/apiClient module, `request` and its call sites) -/

/-- A JavaScript JSON value, as passed to `JSON.stringify`.  Numbers are
modelled as integers (the payloads in this client are ids and strings). -/
inductive Json where
  | null
  | bool (b : Bool)
  | num (n : Int)
  | str (s : String)
  | arr (elems : List Json)
  | obj (fields : List (String × Json))

mutual

/-- The browser's `JSON.stringify` on the modelled values (string escaping
elided — the client never inspects the serialized text). -/
def Json.stringify : Json → String
  | Json.null => "null"
  | Json.bool true => "true"
  | Json.bool false => "false"
  | Json.num n => toString n
  | Json.str s => "\x22" ++ s ++ "\x22"
  | Json.arr elems => "[" ++ Json.stringifyElems elems ++ "]"
  | Json.obj fields => "\x7b" ++ Json.stringifyFields fields ++ "\x7d"

/-- Comma-separated serialization of array elements. -/
def Json.stringifyElems : List Json → String
  | [] => ""
  | [v] => Json.stringify v
  | v :: rest => Json.stringify v ++ "," ++ Json.stringifyElems rest

/-- Comma-separated serialization of object fields. -/
def Json.stringifyFields : List (String × Json) → String
  | [] => ""
  | [kv] => "\x22" ++ kv.fst ++ "\x22:" ++ Json.stringify kv.snd
  | kv :: rest =>
    "\x22" ++ kv.fst ++ "\x22:" ++ Json.stringify kv.snd ++ "," ++
      Json.stringifyFields rest

end

/-- The HTTP verbs the client's helpers pass to `request` (`'POST'`,
`'PATCH'`, `'GET'`, `'DELETE'`, all already upper-case, so
`method.toUpperCase()` is the identity on them). -/
inductive Verb where
  | GET
  | POST
  | PATCH
  | DELETE
deriving DecidableEq, Repr

/-- The `opts` object `request` builds and hands to `fetch`. -/
structure RequestOpts where
  contentType : String
  method : Verb
  authorization : Option String
  body : Option String
deriving DecidableEq, Repr

/-- The browser `fetch` response, reduced to what the client can do with
it: call `.json()` or return the object itself. -/
structure FetchResponse where
  status : Nat
  jsonBody : Json

/-- What `request` returns: the parsed JSON body (`response.json()`) when
`getFullResponse` is false, the unparsed response object otherwise. -/
inductive RequestResult where
  | parsed (body : Json)
  | full (response : FetchResponse)

/-- apiClient lines 80–105 (`request`).  The ambient inputs are explicit:
`token` is `localStorage.getItem('token')` and `response` the value
`fetch` resolves to.  The function builds `opts` with a
`Content-Type: application/json` header and the method; attaches
`opts.body = JSON.stringify(data)` when `method.toUpperCase() !== 'GET'`;
attaches `opts.headers['Authorization'] = `Bearer ${token}`` when `auth`;
and returns `response.json()` unless `getFullResponse`, in which case it
returns `response` itself. -/
def request (method : Verb) (data : Json) (auth : Bool)
    (getFullResponse : Bool) (token : String) (response : FetchResponse) :
    RequestOpts × RequestResult :=
  let opts : RequestOpts :=
    { contentType := "application/json"
      method := method
      body := if method ≠ Verb.GET then some (Json.stringify data) else none
      authorization := if auth then some ("Bearer " ++ token) else none }
  (opts, if getFullResponse = false
    then RequestResult.parsed response.jsonBody
    else RequestResult.full response)

/-- The exported API functions of the client module, each of which reaches
`request` through one of the verb helpers (`post`/`patch`/`get`/`del`,
lines 4–18, whose `auth` parameter defaults to `true`). -/
inductive ApiFun where
  | login
  | register
  | patchProfile
  | getUsers
  | getUserById
  | getUsersByName
  | patchUser
  | getPosts
  | postPost
  | deletePost
  | patchPost
  | getCohorts
deriving DecidableEq, Repr

/-- The `auth` argument each call site passes down to `request`:
`login` (line 22) and `register` (line 26) pass `false` explicitly; every
other call site either passes `true` explicitly or relies on the helpers'
`auth = true` default. -/
def authFlag : ApiFun → Bool
  | ApiFun.login => false
  | ApiFun.register => false
  | ApiFun.patchProfile => true
  | ApiFun.getUsers => true
  | ApiFun.getUserById => true
  | ApiFun.getUsersByName => true
  | ApiFun.patchUser => true
  | ApiFun.getPosts => true
  | ApiFun.postPost => true
  | ApiFun.deletePost => true
  | ApiFun.patchPost => true
  | ApiFun.getCohorts => true

/-- apiClient lines 30–33 (`patchProfile`): destructure
`const { password, ...dataToSend } = userData` (drop the `password` key,
keep every other own property) and call
`patch(`users/${userId}`, dataToSend, true, true)`.  `userData` is
modelled as its ordered own-property list; the result is the endpoint
together with what `request` produces. -/
def patchProfile (userId : Nat) (userData : List (String × Json))
    (token : String) (response : FetchResponse) :
    String × RequestOpts × RequestResult :=
  let dataToSend := userData.filter (fun kv => kv.fst ≠ "password")
  let r := request Verb.PATCH (Json.obj dataToSend) true true token response
  ("users/" ++ toString userId, r.fst, r.snd)

/-! ## Helper lemmas for the operation-sequence analysis -/

lemma survivingCreateIds_subset (ops : List PostOp) :
    ∀ i ∈ survivingCreateIds ops, i ∈ createIds ops := by
  induction ops with
  | nil => simp [survivingCreateIds]
  | cons op rest ih =>
    cases op with
    | create p =>
      intro i hi
      simp only [survivingCreateIds] at hi
      by_cases hd : p.id ∈ deleteIds rest
      · simp only [if_pos hd] at hi
        exact List.mem_cons_of_mem _ (ih i hi)
      · simp only [if_neg hd, List.mem_cons] at hi
        rcases hi with h | h
        · exact h ▸ List.mem_cons_self _ _
        · exact List.mem_cons_of_mem _ (ih i h)
    | delete j => exact fun i hi => ih i hi

lemma ids_filter (i : Nat) (ps : List Post) :
    (ps.filter (fun p => p.id ≠ i)).map Post.id
      = (ps.map Post.id).filter (fun x => x ≠ i) := by
  exact (@List.filter_map _ _ (fun x => decide (x ≠ i)) Post.id ps).symm

lemma applyOps_ids (ops : List PostOp) :
    ∀ ps : List Post, (applyOps ops ps).map Post.id
      = applyIds ops (ps.map Post.id) := by
  induction ops with
  | nil => intro ps; rfl
  | cons op rest ih =>
    intro ps
    cases op with
    | create p => simpa [applyOps, applyIds, handlePostSubmit] using ih (p :: ps)
    | delete i =>
      simp only [applyOps, applyIds, handleDeletePost]
      rw [ih, ids_filter]

lemma filter_filter_notMem (i0 : Nat) (D : List Nat) (l : List Nat) :
    (l.filter (fun x => x ≠ i0)).filter (fun x => x ∉ D)
      = l.filter (fun x => x ∉ i0 :: D) := by
  rw [List.filter_filter]
  refine List.filter_congr ?_
  intro x _
  by_cases h1 : x = i0
  · simp [h1]
  · by_cases h2 : x ∈ D <;> simp [h1, h2]

lemma applyIds_spec (ops : List PostOp) :
    ∀ l : List Nat, l.Nodup → (createIds ops).Nodup →
      (∀ i ∈ createIds ops, i ∉ l) →
      ((applyIds ops l).length
          = (l.filter (fun x => x ∉ deleteIds ops)).length + survivingCreates ops)
      ∧ (applyIds ops l).Nodup
      ∧ (∀ i, i ∈ applyIds ops l ↔
          (i ∈ l ∧ i ∉ deleteIds ops) ∨ i ∈ survivingCreateIds ops) := by
  induction ops with
  | nil =>
    intro l hl _ _
    refine ⟨?_, hl, ?_⟩
    · simp [applyIds, deleteIds, survivingCreates]
    · intro i; simp [applyIds, deleteIds, survivingCreateIds]
  | cons op rest ih =>
    intro l hl hc hf
    cases op with
    | create p =>
      simp only [createIds] at hc
      rw [List.nodup_cons] at hc
      obtain ⟨hpnotc, hc'⟩ := hc
      have hpl : p.id ∉ l := hf p.id (by simp [createIds])
      have hf' : ∀ i ∈ createIds rest, i ∉ (p.id :: l) := by
        intro i hi
        simp only [List.mem_cons, not_or]
        exact ⟨fun he => hpnotc (he ▸ hi), hf i (by simp [createIds, hi])⟩
      obtain ⟨hlen, hnd, hmem⟩ :=
        ih (p.id :: l) (List.nodup_cons.mpr ⟨hpl, hl⟩) hc' hf'
      refine ⟨?_, hnd, ?_⟩
      · show (applyIds rest (p.id :: l)).length = _
        rw [hlen]
        simp only [deleteIds, survivingCreates, List.filter_cons]
        by_cases hd : p.id ∈ deleteIds rest
        · simp [hd]
        · simp [hd]
          omega
      · intro i
        show i ∈ applyIds rest (p.id :: l) ↔ _
        rw [hmem i]
        have hsub := survivingCreateIds_subset rest
        simp only [deleteIds, survivingCreateIds, List.mem_cons]
        by_cases hip : i = p.id
        · subst hip
          have hnotS : p.id ∉ survivingCreateIds rest :=
            fun hS => hpnotc (hsub p.id hS)
          by_cases hd : p.id ∈ deleteIds rest
          · simp [hd, hpl, hnotS]
          · simp [hd, hpl, hnotS]
        · by_cases hd : p.id ∈ deleteIds rest
          · simp [hd, hip]
          · simp [hd, hip]
    | delete i0 =>
      have hc' : (createIds rest).Nodup := by simpa [createIds] using hc
      have hf' : ∀ i ∈ createIds rest, i ∉ l.filter (fun x => x ≠ i0) := by
        intro i hi hmemf
        exact hf i (by simpa [createIds] using hi) (List.mem_of_mem_filter hmemf)
      obtain ⟨hlen, hnd, hmem⟩ :=
        ih (l.filter (fun x => x ≠ i0)) (hl.filter _) hc' hf'
      refine ⟨?_, hnd, ?_⟩
      · show (applyIds rest (l.filter (fun x => x ≠ i0))).length = _
        rw [hlen, filter_filter_notMem]
        simp [deleteIds, survivingCreates]
      · intro i
        show i ∈ applyIds rest (l.filter (fun x => x ≠ i0)) ↔ _
        rw [hmem i]
        simp only [deleteIds, survivingCreateIds, List.mem_filter,
          List.mem_cons, decide_eq_true_eq]
        constructor
        · rintro (⟨⟨hil, hne⟩, hnd'⟩ | hS)
          · exact Or.inl ⟨hil, fun h => h.elim hne hnd'⟩
          · exact Or.inr hS
        · rintro (⟨hil, hnotin⟩ | hS)
          · exact Or.inl ⟨⟨hil, fun h => hnotin (Or.inl h)⟩,
              fun h => hnotin (Or.inr h)⟩
          · exact Or.inr hS

lemma updatePosts_id (f : Post → Post) (posts : List Post)
    (h : ∀ p ∈ posts, f p = p) : updatePosts f posts = posts := by
  induction posts with
  | nil => rfl
  | cons p rest ih =>
    simp only [updatePosts, List.map_cons] at *
    rw [h p (List.mem_cons_self p rest),
      ih (fun q hq => h q (List.mem_cons_of_mem p hq))]

lemma filter_remove_unique (cid : Nat) (l1 l2 : List Comment) (c : Comment)
    (hc : c.id = cid) (h1 : ∀ d ∈ l1, d.id ≠ cid) (h2 : ∀ d ∈ l2, d.id ≠ cid) :
    (l1 ++ c :: l2).filter (fun d => d.id ≠ cid) = l1 ++ l2 := by
  have e1 : l1.filter (fun d => d.id ≠ cid) = l1 :=
    List.filter_eq_self.mpr (fun a ha => by simpa using h1 a ha)
  have e2 : l2.filter (fun d => d.id ≠ cid) = l2 :=
    List.filter_eq_self.mpr (fun a ha => by simpa using h2 a ha)
  rw [List.filter_append, List.filter_cons, if_neg (by simp [hc]), e1, e2]

/-! ## Claim theorems -/

/-- Claim C1: the update-post local transform leaves every post whose id
differs from the updated id unchanged: the element of the resulting
sequence at each unaffected position is the very element of the input
sequence (the `map` callback returns `post` itself, preserving `===`
identity). -/
theorem update_post_preserves_unaffected (postId : Nat) (updatedPost : Post)
    (refreshedComments : List Comment) (posts : List Post) (j : Nat) (p : Post)
    (hj : posts[j]? = some p) (hne : p.id ≠ postId) :
    ((handleUpdatePost (Except.ok updatedPost) (Except.ok refreshedComments)
        postId posts).snd)[j]? = some p := by
  simp only [handleUpdatePost, updatePosts]
  rw [List.getElem?_map, hj]
  simp [hne]

theorem update_post_preserves_unaffected_witness :
    ((handleUpdatePost
        (Except.ok { id := 1, userId := 10, content := "patched", comments := [] })
        (Except.ok []) 1
        [{ id := 1, userId := 10, content := "a", comments := [] },
         { id := 2, userId := 11, content := "b", comments := [] }]).snd)[1]?
      = some { id := 2, userId := 11, content := "b", comments := [] } :=
  update_post_preserves_unaffected 1 _ _ _ 1 _ rfl (by decide)

/-- Claim C2: starting from posts with pairwise-distinct ids and running
any sequence of create-post transforms (each server-assigned id fresh) and
delete-post transforms (each targeting a created id), the final length is
the number of initial posts plus the number of creates not followed by a
delete of the same id, and the final id collection has no duplicate and no
missing entry: it holds exactly the initial ids and the surviving created
ids. -/
theorem create_delete_length_and_ids (init : List Post) (ops : List PostOp)
    (h1 : (init.map Post.id).Nodup)
    (h2 : (createIds ops).Nodup)
    (h3 : ∀ i ∈ createIds ops, i ∉ init.map Post.id)
    (h4 : ∀ i ∈ deleteIds ops, i ∈ createIds ops) :
    (applyOps ops init).length = init.length + survivingCreates ops
    ∧ ((applyOps ops init).map Post.id).Nodup
    ∧ (∀ i, i ∈ (applyOps ops init).map Post.id ↔
        i ∈ init.map Post.id ∨ i ∈ survivingCreateIds ops) := by
  obtain ⟨hlen, hnd, hmem⟩ := applyIds_spec ops (init.map Post.id) h1 h2 h3
  have hfix : (init.map Post.id).filter (fun x => x ∉ deleteIds ops)
      = init.map Post.id := by
    refine List.filter_eq_self.mpr ?_
    intro a ha
    simp only [decide_eq_true_eq]
    exact fun hdel => h3 a (h4 a hdel) ha
  have hids := applyOps_ids ops init
  refine ⟨?_, ?_, ?_⟩
  · have hL : ((applyOps ops init).map Post.id).length
        = (init.map Post.id).length + survivingCreates ops := by
      rw [hids, hlen, hfix]
    simpa using hL
  · rw [hids]; exact hnd
  · intro i
    rw [hids, hmem i]
    constructor
    · rintro (⟨hi, _⟩ | hS)
      · exact Or.inl hi
      · exact Or.inr hS
    · rintro (hi | hS)
      · exact Or.inl ⟨hi, fun hdel => h3 i (h4 i hdel) hi⟩
      · exact Or.inr hS

theorem create_delete_length_and_ids_witness :
    (applyOps
        [PostOp.create { id := 7, userId := 1, content := "c1", comments := [] },
         PostOp.create { id := 8, userId := 1, content := "c2", comments := [] },
         PostOp.delete 7]
        [{ id := 5, userId := 2, content := "i", comments := [] }]).length
      = ([{ id := 5, userId := 2, content := "i", comments := [] }] : List Post).length
          + survivingCreates
              [PostOp.create { id := 7, userId := 1, content := "c1", comments := [] },
               PostOp.create { id := 8, userId := 1, content := "c2", comments := [] },
               PostOp.delete 7] :=
  (create_delete_length_and_ids
    [{ id := 5, userId := 2, content := "i", comments := [] }]
    [PostOp.create { id := 7, userId := 1, content := "c1", comments := [] },
     PostOp.create { id := 8, userId := 1, content := "c2", comments := [] },
     PostOp.delete 7]
    (by decide) (by decide) (by decide) (by decide)).1

/-- Claim C3: when the posts sequence contains a post with the updated id,
the update-post handler replaces that post with the patched server result
whose comments field is exactly the freshly fetched comment sequence
(discarding the previous local comments), and leaves every other post —
hence its comments — unchanged. -/
theorem update_post_refreshes_comments (postId : Nat) (updatedPost : Post)
    (refreshedComments : List Comment) (posts : List Post)
    (_hex : ∃ p ∈ posts, p.id = postId) (j : Nat) (p : Post)
    (hj : posts[j]? = some p) :
    (p.id = postId →
      ((handleUpdatePost (Except.ok updatedPost) (Except.ok refreshedComments)
          postId posts).snd)[j]?
        = some { updatedPost with comments := refreshedComments })
    ∧ (p.id ≠ postId →
      ((handleUpdatePost (Except.ok updatedPost) (Except.ok refreshedComments)
          postId posts).snd)[j]? = some p) := by
  simp only [handleUpdatePost, updatePosts]
  rw [List.getElem?_map, hj]
  constructor
  · intro h; simp [h]
  · intro h; simp [h]

theorem update_post_refreshes_comments_witness :
    ((handleUpdatePost
        (Except.ok { id := 1, userId := 10, content := "patched", comments := [] })
        (Except.ok [{ id := 9, postId := 1, userId := 3, content := "fresh" }]) 1
        [{ id := 1, userId := 10, content := "a",
           comments := [{ id := 4, postId := 1, userId := 5, content := "stale" }] }]).snd)[0]?
      = some { id := 1, userId := 10, content := "patched",
               comments := [{ id := 9, postId := 1, userId := 3, content := "fresh" }] } :=
  (update_post_refreshes_comments 1
    { id := 1, userId := 10, content := "patched", comments := [] }
    [{ id := 9, postId := 1, userId := 3, content := "fresh" }]
    [{ id := 1, userId := 10, content := "a",
       comments := [{ id := 4, postId := 1, userId := 5, content := "stale" }] }]
    ⟨{ id := 1, userId := 10, content := "a",
       comments := [{ id := 4, postId := 1, userId := 5, content := "stale" }] },
      by decide, rfl⟩
    0 _ rfl).1 rfl

/-- Claim C4: when the given comment id occurs exactly once, inside the
post with the given post id, the delete-comment transform removes exactly
that comment from that post (keeping the surrounding comments in order and
identity) and returns every other post unchanged. -/
theorem delete_comment_removes_exactly_one (postId commentId : Nat)
    (posts : List Post) (j : Nat) (p : Post) (hj : posts[j]? = some p) :
    (p.id ≠ postId →
      ((handleDeleteComment (Except.ok ()) postId commentId posts).snd)[j]?
        = some p)
    ∧ (∀ (l1 l2 : List Comment) (c : Comment),
        p.id = postId → p.comments = l1 ++ c :: l2 → c.id = commentId →
        (∀ d ∈ l1, d.id ≠ commentId) → (∀ d ∈ l2, d.id ≠ commentId) →
        ((handleDeleteComment (Except.ok ()) postId commentId posts).snd)[j]?
          = some { p with comments := l1 ++ l2 }) := by
  simp only [handleDeleteComment, updatePosts]
  rw [List.getElem?_map, hj]
  constructor
  · intro h; simp [h]
  · intro l1 l2 c hid hcom hc hl1 hl2
    simp only [Option.map_some', if_pos hid, Option.some_inj]
    rw [hcom, filter_remove_unique commentId l1 l2 c hc hl1 hl2]

theorem delete_comment_removes_exactly_one_witness :
    ((handleDeleteComment (Except.ok ()) 1 4
        [{ id := 1, userId := 10, content := "a",
           comments := [{ id := 3, postId := 1, userId := 5, content := "k" },
                        { id := 4, postId := 1, userId := 5, content := "gone" },
                        { id := 6, postId := 1, userId := 5, content := "m" }] }]).snd)[0]?
      = some { id := 1, userId := 10, content := "a",
               comments := [{ id := 3, postId := 1, userId := 5, content := "k" },
                            { id := 6, postId := 1, userId := 5, content := "m" }] } :=
  (delete_comment_removes_exactly_one 1 4
    [{ id := 1, userId := 10, content := "a",
       comments := [{ id := 3, postId := 1, userId := 5, content := "k" },
                    { id := 4, postId := 1, userId := 5, content := "gone" },
                    { id := 6, postId := 1, userId := 5, content := "m" }] }]
    0 _ rfl).2
    [{ id := 3, postId := 1, userId := 5, content := "k" }]
    [{ id := 6, postId := 1, userId := 5, content := "m" }]
    { id := 4, postId := 1, userId := 5, content := "gone" }
    rfl rfl rfl (by decide) (by decide)

/-- Claim C5, counterexample: the create-post handler wraps its body in
`try { ... } catch (err) { console.error(err); }`, so a failing `postPost`
call is caught inside the handler and the handler resolves normally — the
rejection does not propagate to the caller, contrary to the claim that no
mutation handler catches. -/
theorem create_post_rejection_is_caught :
    (handlePostSubmit (Except.error { msg := "network failure" }) []).fst
        = Except.ok ()
    ∧ (handlePostSubmit (Except.error { msg := "network failure" }) []).fst
        ≠ Except.error { msg := "network failure" } := by
  exact ⟨rfl, by simp [handlePostSubmit]⟩

/-- Claim C5, amended: on a failing server call every mutation handler
leaves the posts state unchanged; the rejection propagates uncaught for
delete-post, update-post (either of its two calls), create-comment,
delete-comment and update-comment, while the create-post handler catches
the rejection (logging it) and resolves normally. -/
theorem mutation_error_paths (e : ApiError) (postId commentId : Nat)
    (prev : List Post) :
    handlePostSubmit (Except.error e) prev = (Except.ok (), prev)
    ∧ handleDeletePost (Except.error e) postId prev = (Except.error e, prev)
    ∧ (∀ commentsCall,
        handleUpdatePost (Except.error e) commentsCall postId prev
          = (Except.error e, prev))
    ∧ (∀ updatedPost,
        handleUpdatePost (Except.ok updatedPost) (Except.error e) postId prev
          = (Except.error e, prev))
    ∧ handleCommentPost (Except.error e) postId prev = (Except.error e, prev)
    ∧ handleDeleteComment (Except.error e) postId commentId prev
        = (Except.error e, prev)
    ∧ handleUpdateComment (Except.error e) postId commentId prev
        = (Except.error e, prev) :=
  ⟨rfl, rfl, fun _ => rfl, fun _ => rfl, rfl, rfl, rfl⟩

/-- Claim C6: on initial load the posts state becomes the exact reversal
of the server-returned sequence; on a failed fetch it stays the empty
sequence; in both cases the `finally` block clears `loadingPosts`. -/
theorem fetch_posts_initial_load (r : Except ApiError (List Post)) :
    (fetchPosts r initialPostsState).loadingPosts = false
    ∧ (∀ l, r = Except.ok l → (fetchPosts r initialPostsState).posts = l.reverse)
    ∧ (∀ e, r = Except.error e → (fetchPosts r initialPostsState).posts = []) := by
  refine ⟨?_, ?_, ?_⟩
  · cases r <;> rfl
  · intro l hr; subst hr; rfl
  · intro e hr; subst hr; rfl

theorem fetch_posts_initial_load_witness :
    (fetchPosts
        (Except.ok [{ id := 1, userId := 2, content := "old", comments := [] },
                    { id := 3, userId := 4, content := "new", comments := [] }])
        initialPostsState).posts
      = [{ id := 3, userId := 4, content := "new", comments := [] },
         { id := 1, userId := 2, content := "old", comments := [] }]
    ∧ (fetchPosts (Except.error { msg := "network failure" })
        initialPostsState).posts = [] :=
  ⟨(fetch_posts_initial_load
      (Except.ok [{ id := 1, userId := 2, content := "old", comments := [] },
                  { id := 3, userId := 4, content := "new", comments := [] }])).2.1
      _ rfl,
   (fetch_posts_initial_load
      (Except.error { msg := "network failure" })).2.2 _ rfl⟩

/-- Claim C7: `request` attaches `Authorization: Bearer <token>` (token
read from persisted client storage) exactly when its `auth` flag is true,
and across the API client's exported functions the flag is false precisely
at the two call sites `login` and `register`. -/
theorem auth_header_iff_only_login_register (f : ApiFun) (m : Verb)
    (data : Json) (gfr : Bool) (token : String) (resp : FetchResponse) :
    ((request m data (authFlag f) gfr token resp).fst.authorization
        = some ("Bearer " ++ token) ↔ authFlag f = true)
    ∧ (authFlag f = false ↔ (f = ApiFun.login ∨ f = ApiFun.register)) := by
  constructor
  · cases hf : authFlag f <;> simp [request, hf]
  · cases f <;> simp [authFlag]

theorem auth_header_iff_only_login_register_witness :
    ((request Verb.POST Json.null (authFlag ApiFun.login) false "tok"
        { status := 200, jsonBody := Json.null }).fst.authorization
      = some ("Bearer " ++ "tok") ↔ authFlag ApiFun.login = true)
    ∧ (authFlag ApiFun.login = false
        ↔ (ApiFun.login = ApiFun.login ∨ ApiFun.login = ApiFun.register)) :=
  auth_header_iff_only_login_register ApiFun.login Verb.POST Json.null false
    "tok" { status := 200, jsonBody := Json.null }

/-- Claim C8: `request` attaches a body equal to `JSON.stringify` of the
payload exactly when the verb is not GET, and returns the parsed JSON body
when `getFullResponse` is false and the unparsed response object when it
is true. -/
theorem request_body_and_return (m : Verb) (data : Json) (auth : Bool)
    (gfr : Bool) (token : String) (resp : FetchResponse) :
    ((request m data auth gfr token resp).fst.body
        = some (Json.stringify data) ↔ m ≠ Verb.GET)
    ∧ (gfr = false →
        (request m data auth gfr token resp).snd
          = RequestResult.parsed resp.jsonBody)
    ∧ (gfr = true →
        (request m data auth gfr token resp).snd = RequestResult.full resp) := by
  refine ⟨?_, ?_, ?_⟩
  · by_cases hm : m = Verb.GET <;> simp [request, hm]
  · intro h; subst h; rfl
  · intro h; subst h; rfl

theorem request_body_and_return_witness :
    ((request Verb.POST (Json.str "hi") true false "tok"
        { status := 200, jsonBody := Json.null }).fst.body
      = some (Json.stringify (Json.str "hi")) ↔ Verb.POST ≠ Verb.GET)
    ∧ (request Verb.POST (Json.str "hi") true false "tok"
        { status := 200, jsonBody := Json.null }).snd
      = RequestResult.parsed Json.null
    ∧ (request Verb.GET Json.null true true "tok"
        { status := 200, jsonBody := Json.null }).snd
      = RequestResult.full { status := 200, jsonBody := Json.null } :=
  ⟨(request_body_and_return Verb.POST (Json.str "hi") true false "tok"
      { status := 200, jsonBody := Json.null }).1,
   (request_body_and_return Verb.POST (Json.str "hi") true false "tok"
      { status := 200, jsonBody := Json.null }).2.1 rfl,
   (request_body_and_return Verb.GET Json.null true true "tok"
      { status := 200, jsonBody := Json.null }).2.2 rfl⟩

/-- Claim C9: `patchProfile` strips the `password` key before sending, so
its request never carries a password field and two inputs that agree off
the `password` key produce identical PATCH requests. -/
theorem patch_profile_password_independent (userId : Nat)
    (u1 u2 : List (String × Json)) (token : String) (resp : FetchResponse)
    (h : u1.filter (fun kv => kv.fst ≠ "password")
        = u2.filter (fun kv => kv.fst ≠ "password")) :
    patchProfile userId u1 token resp = patchProfile userId u2 token resp
    ∧ "password" ∉ (u1.filter (fun kv => kv.fst ≠ "password")).map Prod.fst := by
  constructor
  · simp only [patchProfile]
    rw [h]
  · intro hmem
    rcases List.mem_map.mp hmem with ⟨kv, hkv, hfst⟩
    have hne := (List.mem_filter.mp hkv).2
    exact absurd hfst (by simpa using hne)

theorem patch_profile_password_independent_witness :
    patchProfile 7 [("firstName", Json.str "A"), ("password", Json.str "x")]
        "tok" { status := 200, jsonBody := Json.null }
      = patchProfile 7 [("firstName", Json.str "A"), ("password", Json.str "y")]
        "tok" { status := 200, jsonBody := Json.null } :=
  (patch_profile_password_independent 7
    [("firstName", Json.str "A"), ("password", Json.str "x")]
    [("firstName", Json.str "A"), ("password", Json.str "y")]
    "tok" { status := 200, jsonBody := Json.null } rfl).1

/-- Claim C10: when no post in the sequence has the targeted id, each of
the four per-post transforms (update post, create comment, delete comment,
update comment) returns the posts sequence elementwise unchanged — the
`map` callback returns each element itself. -/
theorem missing_post_id_transforms_identity (postId commentId : Nat)
    (updatedPost : Post) (refreshedComments : List Comment)
    (savedComment updatedComment : Comment) (posts : List Post)
    (h : ∀ p ∈ posts, p.id ≠ postId) :
    (handleUpdatePost (Except.ok updatedPost) (Except.ok refreshedComments)
        postId posts).snd = posts
    ∧ (handleCommentPost (Except.ok savedComment) postId posts).snd = posts
    ∧ (handleDeleteComment (Except.ok ()) postId commentId posts).snd = posts
    ∧ (handleUpdateComment (Except.ok updatedComment) postId commentId
        posts).snd = posts := by
  refine ⟨?_, ?_, ?_, ?_⟩ <;>
    exact updatePosts_id _ posts (fun p hp => if_neg (h p hp))

theorem missing_post_id_transforms_identity_witness :
    (handleUpdatePost
        (Except.ok { id := 42, userId := 1, content := "u", comments := [] })
        (Except.ok []) 42
        [{ id := 1, userId := 10, content := "a", comments := [] },
         { id := 2, userId := 11, content := "b", comments := [] }]).snd
      = [{ id := 1, userId := 10, content := "a", comments := [] },
         { id := 2, userId := 11, content := "b", comments := [] }] :=
  (missing_post_id_transforms_identity 42 9
    { id := 42, userId := 1, content := "u", comments := [] } []
    { id := 9, postId := 42, userId := 1, content := "c" }
    { id := 9, postId := 42, userId := 1, content := "c2" }
    [{ id := 1, userId := 10, content := "a", comments := [] },
     { id := 2, userId := 11, content := "b", comments := [] }]
    (by decide)).1

end CohortManager
